import Mathlib

set_option linter.unusedVariables false
set_option linter.unnecessarySeqFocus false

/-!
Shallow embedding of `src/s3_orchestrator.py` (class `S3ExcelAPIOrchestrator`).

Python dictionaries and scalars that flow through the orchestrator are
modelled by `PyVal`; Python dict insertion-order semantics (updating an
existing key keeps its position, a fresh key is appended at the end) are
modelled by `dictSet` on association lists.  XML element trees
(`xml.etree.ElementTree.Element`) are modelled by the mutually inductive
`XmlElement`/`XmlForest`.  The pandas DataFrame loaded from the Excel file
is modelled as a list of rows, each row an association list from column
name to `Cell` (a scalar that may be the NaN missing-value sentinel).

Effectful collaborators (the HTTP transport and the S3 copy-with-metadata
call) are modelled by oracles carried in `Env`: `Env.http` gives, per
identifier, either a raised transport exception or a status code together
with the XML-parse outcome of the body, and `Env.write` gives the boolean
outcome of the S3 metadata copy.  `Env.now` is the fixed value of
`pd.Timestamp.now().isoformat()` for the run.
-/

/-- Values stored in the Python dictionaries built by the orchestrator:
strings, numbers, `None`, lists, and (insertion-ordered) dicts. -/
inductive PyVal where
  | s : String → PyVal
  | int : Int → PyVal
  | none : PyVal
  | list : List PyVal → PyVal
  | dict : List (String × PyVal) → PyVal

mutual
/-- XML element: tag, attributes, text, children (source line 162,
`ET.Element`). -/
inductive XmlElement where
  | mk : String → List (String × String) → Option String → XmlForest → XmlElement

/-- List of sibling XML elements. -/
inductive XmlForest where
  | nil : XmlForest
  | cons : XmlElement → XmlForest → XmlForest
end

/-- Tag name of an element (`child.tag`, source line 181). -/
def XmlElement.tag : XmlElement → String
  | .mk t _ _ _ => t

/-- Python `d[k]`-style read on an insertion-ordered dict (`k in d` test at
source line 181). -/
def dictGet (d : List (String × PyVal)) (k : String) : Option PyVal :=
  match d with
  | [] => Option.none
  | (k', v) :: rest => if k' = k then some v else dictGet rest k

/-- Python `d[k] = v` on an insertion-ordered dict: an existing key keeps
its position, a new key is appended. -/
def dictSet (d : List (String × PyVal)) (k : String) (v : PyVal) : List (String × PyVal) :=
  match d with
  | [] => [(k, v)]
  | (k', v') :: rest => if k' = k then (k', v) :: rest else (k', v') :: dictSet rest k v

/-- Child insertion of `_xml_to_dict` (source lines 178-187): a repeated
tag is promoted to a list and appended to, a fresh tag is inserted. -/
def insertChild (d : List (String × PyVal)) (tag : String) (cd : PyVal) : List (String × PyVal) :=
  match dictGet d tag with
  | some (PyVal.list l) => dictSet d tag (PyVal.list (l ++ [cd]))
  | some v => dictSet d tag (PyVal.list [v, cd])
  | Option.none => dictSet d tag cd

mutual
/-- `S3ExcelAPIOrchestrator._xml_to_dict` (source lines 162-189).
`xml_fold` is the `for child in element` loop.  Python's
`element.text and element.text.strip()` truthiness test is the condition
that the trimmed text is non-empty. -/
def xml_to_dict (e : XmlElement) : PyVal :=
  match e with
  | .mk _ attrib text children =>
    let textTrim := (text.getD "").trim
    match children with
    | .nil =>
      if textTrim ≠ "" then PyVal.s textTrim
      else PyVal.dict (attrib.map (fun p => (p.1, PyVal.s p.2)))
    | .cons c rest =>
      let base := attrib.map (fun p => (p.1, PyVal.s p.2))
      let base := if textTrim ≠ "" then dictSet base "text" (PyVal.s textTrim) else base
      PyVal.dict (xml_fold base (XmlForest.cons c rest))
termination_by structural e

/-- The `for child in element` loop of `_xml_to_dict` (source lines
178-187), threading the dict being built. -/
def xml_fold (acc : List (String × PyVal)) (f : XmlForest) : List (String × PyVal) :=
  match f with
  | .nil => acc
  | .cons c rest => xml_fold (insertChild acc c.tag (xml_to_dict c)) rest
termination_by structural f
end

/-- One cell of the Excel DataFrame: a string, a number, or the NaN
missing-value sentinel. -/
inductive Cell where
  | str : String → Cell
  | num : Int → Cell
  | nan : Cell

/-- Pandas `.astype(str)` stringification of a cell (NaN stringifies to
"nan"). -/
def cellStr : Cell → String
  | Cell.str v => v
  | Cell.num n => toString n
  | Cell.nan => "nan"

/-- Value of a cell in the returned row dict after the NaN-to-None rewrite
of source lines 131-133. -/
def cellVal : Cell → PyVal
  | Cell.str v => PyVal.s v
  | Cell.num n => PyVal.int n
  | Cell.nan => PyVal.none

/-- Read a column of a row. -/
def rowCell (row : List (String × Cell)) (col : String) : Option Cell :=
  match row with
  | [] => Option.none
  | (c, v) :: rest => if c = col then some v else rowCell rest col

/-- The row filter of source lines 120-122:
`df[match_column].astype(str) == str(identifier)`. -/
def row_matches (matchCol identifier : String) (row : List (String × Cell)) : Bool :=
  match rowCell row matchCol with
  | some cell => cellStr cell == identifier
  | Option.none => false

/-- `matching_rows.iloc[0].to_dict()` followed by the NaN-to-None rewrite
(source lines 128-133). -/
def row_to_dict (row : List (String × Cell)) : PyVal :=
  PyVal.dict (row.map (fun p => (p.1, cellVal p.2)))

/-- Outcome of the HTTP GET issued for one identifier: either a raised
transport exception (timeout, connection reset, ...) carrying its message,
or a response with a status code and the `ET.fromstring` outcome of its
body (a parse error carries the exception message). -/
inductive HttpResult where
  | exn : String → HttpResult
  | resp : Nat → Except String XmlElement → HttpResult

/-- The orchestrator state plus its effectful collaborators for one run. -/
structure Env where
  excel_df : List (List (String × Cell))
  excel_match_column : String
  http : String → HttpResult
  write : String → PyVal → Bool
  now : String

/-- `ProcessingResult` dataclass (source lines 18-26). -/
structure ProcessingResult where
  s3_key : String
  excel_data : PyVal
  api_data : PyVal
  combined_metadata : PyVal
  success : Bool
  error_message : Option String

/-- `extract_identifier_from_key` (source lines 107-115): last path
segment, then everything before the first dot. -/
def extract_identifier_from_key (s3_key : String) : String :=
  let filename := (s3_key.splitOn "/").getLastD ""
  (filename.splitOn ".").headD ""

/-- `get_excel_row` (source lines 117-139): filter the DataFrame on the
stringified match column, return the first matching row as a dict with
NaN rewritten to None, or an error-shaped dict when nothing matches. -/
def get_excel_row (env : Env) (identifier : String) : PyVal :=
  match env.excel_df.filter (row_matches env.excel_match_column identifier) with
  | [] => PyVal.dict [("error", PyVal.s ("No matching row found for identifier: " ++ identifier))]
  | row :: _ => row_to_dict row

/-- `query_api` (source lines 141-160).  A 200 response is parsed and
converted; a parse error is caught inside this function and becomes an
error-shaped dict; a non-200 status becomes an error-shaped dict; a raised
transport exception is caught inside this function (lines 158-160) and
becomes an error-shaped dict.  This function never raises. -/
def query_api (env : Env) (identifier : String) : PyVal :=
  match env.http identifier with
  | HttpResult.exn msg => PyVal.dict [("error", PyVal.s msg)]
  | HttpResult.resp status body =>
    if status = 200 then
      match body with
      | Except.ok root => xml_to_dict root
      | Except.error msg => PyVal.dict [("error", PyVal.s msg)]
    else
      PyVal.dict [("error", PyVal.s ("API request failed with status " ++ toString status))]

/-- `combine_data` (source lines 191-204). -/
def combine_data (env : Env) (s3_key : String) (excel_data api_data : PyVal) : PyVal :=
  PyVal.dict [("s3_key", PyVal.s s3_key),
              ("processing_timestamp", PyVal.s env.now),
              ("excel_data", excel_data),
              ("api_data", api_data)]

/-- `update_s3_metadata` (source lines 206-229): the S3 copy-with-metadata
call either succeeds (True) or its exception is caught and False is
returned; the boolean oracle `Env.write` carries that outcome.  This
function never raises. -/
def update_s3_metadata (env : Env) (s3_key : String) (metadata : PyVal) : Bool :=
  env.write s3_key metadata

/-- `process_single_key` (source lines 231-267), the async pipeline.
Every step as modelled catches its own failures (`get_excel_row`,
`query_api` and `update_s3_metadata` return error values instead of
raising), so the `except` branch of lines 258-267 is not reachable for the
modelled effects and the run always yields a completed record. -/
def process_single_key (env : Env) (s3_key : String) : ProcessingResult :=
  let identifier := extract_identifier_from_key s3_key
  let excel_data := get_excel_row env identifier
  let api_data := query_api env identifier
  let combined_metadata := combine_data env s3_key excel_data api_data
  let success := update_s3_metadata env s3_key combined_metadata
  { s3_key := s3_key, excel_data := excel_data, api_data := api_data,
    combined_metadata := combined_metadata, success := success,
    error_message := Option.none }

/-- The failed `ProcessingResult` built by the `except` handlers (source
lines 260-267, 286-293, 318-325): empty dicts, `success=False`, and the
exception message. -/
def failed_result (s3_key msg : String) : ProcessingResult :=
  { s3_key := s3_key, excel_data := PyVal.dict [], api_data := PyVal.dict [],
    combined_metadata := PyVal.dict [], success := false,
    error_message := some msg }

/-- `process_single_key_sync` (source lines 329-364), the thread-pool
pipeline.  Unlike the async pipeline, the `requests.get` call and the
`ET.fromstring` parse sit directly inside this function's `try`, so a
raised transport or parse exception reaches the pipeline-level `except`
(lines 356-364) and produces a failed result. -/
def process_single_key_sync (env : Env) (s3_key : String) : ProcessingResult :=
  let identifier := extract_identifier_from_key s3_key
  let excel_data := get_excel_row env identifier
  match env.http identifier with
  | HttpResult.exn msg => failed_result s3_key msg
  | HttpResult.resp status body =>
    let api_data? : Except String PyVal :=
      if status = 200 then
        match body with
        | Except.ok root => Except.ok (xml_to_dict root)
        | Except.error msg => Except.error msg
      else
        Except.ok (PyVal.dict [("error", PyVal.s ("API request failed with status " ++ toString status))])
    match api_data? with
    | Except.error msg => failed_result s3_key msg
    | Except.ok api_data =>
      let combined_metadata := combine_data env s3_key excel_data api_data
      let success := update_s3_metadata env s3_key combined_metadata
      { s3_key := s3_key, excel_data := excel_data, api_data := api_data,
        combined_metadata := combined_metadata, success := success,
        error_message := Option.none }

/-- The per-key conversion shared by both schedulers: an exception
escaping the run (`Except.error`) is converted into a failed result
carrying the scheduler's own key for that task (source lines 284-295 and
312-325); a returned result is kept as is. -/
def settle (s3_key : String) : Except String ProcessingResult → ProcessingResult
  | Except.ok r => r
  | Except.error msg => failed_result s3_key msg

/-- `process_keys_async` (source lines 269-297).  `run` is the body of one
gathered task (in the source, `process_single_key` under the semaphore);
`Except.error` models an exception escaping that task, absorbed by
`asyncio.gather(..., return_exceptions=True)` and paired with
`s3_keys[i]`.  `gather` returns results in task order, i.e. input order.
The semaphore bound `max_concurrent` does not affect the collected
results. -/
def process_keys_async (run : String → Except String ProcessingResult)
    (s3_keys : List String) (max_concurrent : Nat) : List ProcessingResult :=
  s3_keys.map (fun key => settle key (run key))

/-- `process_keys_sync` (source lines 299-327).  `run` is the body of one
submitted future (in the source, `process_single_key_sync`);
`Except.error` models an exception escaping it, caught around
`future.result()` and paired with the future's key.  `as_completed`
yields the futures in an arbitrary completion order, modelled by
`completed`, a permutation of `s3_keys`.  The pool bound `max_workers`
does not affect the collected results. -/
def process_keys_sync (run : String → Except String ProcessingResult)
    (s3_keys : List String) (max_workers : Nat)
    (completed : List String) : List ProcessingResult :=
  completed.map (fun key => settle key (run key))

/-- The task body actually used by `process_keys_async` (source line 276):
`process_single_key`, which never raises for the modelled effects. -/
def run_pipeline_async (env : Env) : String → Except String ProcessingResult :=
  fun key => Except.ok (process_single_key env key)

/-- The future body actually used by `process_keys_sync` (source line
303): `process_single_key_sync`, which never raises for the modelled
effects. -/
def run_pipeline_sync (env : Env) : String → Except String ProcessingResult :=
  fun key => Except.ok (process_single_key_sync env key)

/-- The success tally of `run_orchestrator` (source line 384). -/
def success_count (results : List ProcessingResult) : Nat :=
  (results.filter (fun r => r.success)).length

/-- The failure tally of `run_orchestrator` (source line 385). -/
def failure_count (results : List ProcessingResult) : Nat :=
  results.length - success_count results

/-- The fetch for this key raises a transport exception. -/
def key_fetch_raises (env : Env) (k : String) : Bool :=
  match env.http (extract_identifier_from_key k) with
  | HttpResult.exn _ => true
  | _ => false

/-- The fetch for this key fully succeeds: status 200 and a well-formed
body. -/
def key_fetch_ok (env : Env) (k : String) : Bool :=
  match env.http (extract_identifier_from_key k) with
  | HttpResult.resp status (Except.ok _) => status == 200
  | _ => false

/-- The fetch for this key returns 200 but the body fails to parse. -/
def key_parse_fails (env : Env) (k : String) : Bool :=
  match env.http (extract_identifier_from_key k) with
  | HttpResult.resp 200 (Except.error _) => true
  | _ => false

/-- An empty XML document `<r/>`. -/
def root_empty : XmlElement := XmlElement.mk "r" [] Option.none XmlForest.nil

/-- Concrete environment: the fetch for identifier "a" raises a transport
exception, every other fetch succeeds with an empty body, writes succeed. -/
def env_transport_err : Env :=
  { excel_df := [], excel_match_column := "file_id",
    http := fun identifier =>
      if identifier = "a" then HttpResult.exn "Connection reset by peer"
      else HttpResult.resp 200 (Except.ok root_empty),
    write := fun _ _ => true,
    now := "2024-01-01T00:00:00" }

/-- Concrete environment: every fetch returns HTTP status 404, writes
succeed. -/
def env_status_404 : Env :=
  { excel_df := [], excel_match_column := "file_id",
    http := fun _ => HttpResult.resp 404 (Except.ok root_empty),
    write := fun _ _ => true,
    now := "2024-01-01T00:00:00" }

/-- Concrete environment: every fetch succeeds, every metadata write
reports failure (returns False). -/
def env_write_fails : Env :=
  { excel_df := [], excel_match_column := "file_id",
    http := fun _ => HttpResult.resp 200 (Except.ok root_empty),
    write := fun _ _ => false,
    now := "2024-01-01T00:00:00" }

/-- Concrete DataFrame with a duplicated join key and a NaN cell, for
exercising the lookup. -/
def env_excel : Env :=
  { excel_df := [[("file_id", Cell.str "a"), ("score", Cell.nan)],
                 [("file_id", Cell.str "b"), ("score", Cell.num 7)],
                 [("file_id", Cell.str "a"), ("score", Cell.num 1)]],
    excel_match_column := "file_id",
    http := fun _ => HttpResult.resp 200 (Except.ok root_empty),
    write := fun _ _ => true,
    now := "2024-01-01T00:00:00" }

/-- The record returned by a pipeline run that reaches the write step:
all fields filled in, no error message, success as reported by the
writer. -/
def completed_record (env : Env) (s3_key : String) (api_data : PyVal) : ProcessingResult :=
  let excel_data := get_excel_row env (extract_identifier_from_key s3_key)
  let combined_metadata := combine_data env s3_key excel_data api_data
  { s3_key := s3_key, excel_data := excel_data, api_data := api_data,
    combined_metadata := combined_metadata,
    success := update_s3_metadata env s3_key combined_metadata,
    error_message := Option.none }

/-- A task body that always lets an exception escape: models a bug in an
individual pipeline run, absorbed at the scheduler boundary. -/
def run_always_raises : String → Except String ProcessingResult :=
  fun key => Except.error ("unexpected failure in " ++ key)

/-- First element of the filtered list is the first match in input
order. -/
theorem head_filter_eq_find (p : α → Bool) (l : List α) :
    (l.filter p).head? = l.find? p := by
  induction l with
  | nil => rfl
  | cons a t ih =>
    cases h : p a with
    | true => simp [List.filter_cons, h]
    | false => simp [List.filter_cons, h, ih]

/-- Counting the complement of a Boolean predicate. -/
theorem countP_bnot_eq (p : α → Bool) (l : List α) :
    l.countP (fun a => !(p a)) = l.length - l.countP p := by
  induction l with
  | nil => rfl
  | cons a t ih =>
    have hle : t.countP p ≤ t.length := List.countP_le_length p
    cases h : p a <;> simp [List.countP_cons, h, ih] <;> omega


/-- Pointwise-equal Boolean predicates count the same. -/
theorem countP_congr_bool (l : List α) (p q : α → Bool) (h : ∀ a ∈ l, p a = q a) :
    l.countP p = l.countP q := by
  induction l with
  | nil => rfl
  | cons a t ih =>
    rw [List.countP_cons, List.countP_cons, h a (by simp),
        ih (fun x hx => h x (by simp [hx]))]

/-- The async pipeline equals the completed record built from the
(never-raising) `query_api` result. -/
theorem process_single_key_eq (env : Env) (k : String) :
    process_single_key env k
      = completed_record env k (query_api env (extract_identifier_from_key k)) := rfl

/-- A witnessed transport exception on the fetch makes the sync pipeline
return the failed record. -/
theorem sync_of_exn (env : Env) (k msg : String)
    (h : env.http (extract_identifier_from_key k) = HttpResult.exn msg) :
    process_single_key_sync env k = failed_result k msg := by
  simp [process_single_key_sync, h]

/-- A 200 response whose body fails to parse makes the sync pipeline
return the failed record carrying the parse message. -/
theorem sync_of_parse_error (env : Env) (k msg : String)
    (h : env.http (extract_identifier_from_key k) = HttpResult.resp 200 (Except.error msg)) :
    process_single_key_sync env k = failed_result k msg := by
  simp [process_single_key_sync, h]

/-- A 200 response with a well-formed body completes the sync pipeline
with the converted record. -/
theorem sync_of_ok (env : Env) (k : String) (root : XmlElement)
    (h : env.http (extract_identifier_from_key k) = HttpResult.resp 200 (Except.ok root)) :
    process_single_key_sync env k = completed_record env k (xml_to_dict root) := by
  simp [process_single_key_sync, completed_record, h]

/-- A non-200 response completes the sync pipeline with the error-shaped
record. -/
theorem sync_of_status_ne (env : Env) (k : String) (status : Nat)
    (body : Except String XmlElement) (hne : status ≠ 200)
    (h : env.http (extract_identifier_from_key k) = HttpResult.resp status body) :
    process_single_key_sync env k
      = completed_record env k
          (PyVal.dict [("error", PyVal.s ("API request failed with status " ++ toString status))]) := by
  simp [process_single_key_sync, completed_record, h, hne]

/-- A true `key_fetch_ok` test exhibits the 200 response and its parsed
root. -/
theorem key_fetch_ok_spec (env : Env) (k : String) (hko : key_fetch_ok env k = true) :
    ∃ root, env.http (extract_identifier_from_key k) = HttpResult.resp 200 (Except.ok root) := by
  unfold key_fetch_ok at hko
  cases h : env.http (extract_identifier_from_key k) with
  | exn msg => rw [h] at hko; simp at hko
  | resp status body =>
    rw [h] at hko
    cases body with
    | ok root =>
      have h200 : status = 200 := by simp at hko; exact hko
      subst h200
      exact ⟨root, rfl⟩
    | error msg => simp at hko

/-- A true `key_fetch_raises` test exhibits the raised transport
exception. -/
theorem key_fetch_raises_spec (env : Env) (k : String)
    (hr : key_fetch_raises env k = true) :
    ∃ msg, env.http (extract_identifier_from_key k) = HttpResult.exn msg := by
  unfold key_fetch_raises at hr
  cases h : env.http (extract_identifier_from_key k) with
  | exn msg => exact ⟨msg, rfl⟩
  | resp status body => rw [h] at hr; simp at hr

/-- A false `key_fetch_raises` test exhibits an actual HTTP response. -/
theorem key_fetch_raises_false_spec (env : Env) (k : String)
    (hr : key_fetch_raises env k = false) :
    ∃ status body, env.http (extract_identifier_from_key k) = HttpResult.resp status body := by
  unfold key_fetch_raises at hr
  cases h : env.http (extract_identifier_from_key k) with
  | exn msg => rw [h] at hr; simp at hr
  | resp status body => exact ⟨status, body, rfl⟩

/-- When the fetch neither raises nor hits a parse failure, the sync
pipeline returns exactly the async pipeline's record. -/
theorem pipelines_agree (env : Env) (k : String)
    (h1 : key_fetch_raises env k = false)
    (h2 : key_parse_fails env k = false) :
    process_single_key_sync env k = process_single_key env k := by
  rw [process_single_key_eq]
  obtain ⟨status, body, h⟩ := key_fetch_raises_false_spec env k h1
  by_cases h200 : status = 200
  · subst h200
    cases body with
    | ok root =>
      rw [sync_of_ok env k root h]
      simp [query_api, h]
    | error msg =>
      exfalso
      unfold key_parse_fails at h2
      rw [h] at h2
      simp at h2
  · rw [sync_of_status_ne env k status body h200 h]
    simp [query_api, h, h200]

/-- The settled outcome of a task carries the task's own key whenever the
run respects keys. -/
theorem settle_carries_key (run : String → Except String ProcessingResult)
    (hkey : ∀ k r, run k = Except.ok r → r.s3_key = k) (k : String) :
    (settle k (run k)).s3_key = k := by
  cases h : run k with
  | ok r => simpa [settle] using hkey k r h
  | error msg => rfl

/-- Success of a sync pipeline run is exactly the absence of a raised
fetch exception, when parse and write succeed. -/
theorem sync_success_eq_not_raises (env : Env) (k : String)
    (hok : key_fetch_raises env k = false → key_fetch_ok env k = true)
    (hwrite : ∀ m, update_s3_metadata env k m = true) :
    (process_single_key_sync env k).success = !(key_fetch_raises env k) := by
  cases hr : key_fetch_raises env k with
  | true =>
    obtain ⟨msg, h⟩ := key_fetch_raises_spec env k hr
    rw [sync_of_exn env k msg h]
    rfl
  | false =>
    obtain ⟨root, h⟩ := key_fetch_ok_spec env k (hok hr)
    rw [sync_of_ok env k root h]
    simp [completed_record, hwrite]

/-- A failed sync pipeline run always carries an error message, when
parse and write succeed. -/
theorem sync_failed_has_message (env : Env) (k : String)
    (hok : key_fetch_raises env k = false → key_fetch_ok env k = true)
    (hwrite : ∀ m, update_s3_metadata env k m = true)
    (hfail : (process_single_key_sync env k).success = false) :
    (process_single_key_sync env k).error_message.isSome = true := by
  have h := sync_success_eq_not_raises env k hok hwrite
  rw [hfail] at h
  have hr : key_fetch_raises env k = true := by
    cases hr2 : key_fetch_raises env k with
    | true => rfl
    | false => rw [hr2] at h; simp at h
  obtain ⟨msg, hh⟩ := key_fetch_raises_spec env k hr
  rw [sync_of_exn env k msg hh]
  rfl

/-- Counting successes is counting the success flags. -/
theorem success_count_eq_countP (l : List ProcessingResult) :
    success_count l = l.countP (fun r => r.success) := by
  rw [success_count, List.countP_eq_length_filter]

/-- C7: building the lookup over the row set and looking up a key returns
the first row in input order whose stringified key column equals the
stringified key (exact string match via `row_matches`), with every NaN in
that row rewritten to None by `row_to_dict`; when no row matches, the
explicit not-found value is returned instead of raising. -/
theorem lookup_returns_first_matching_row (env : Env) (k : String)
    (hcol : ∀ row ∈ env.excel_df, (rowCell row env.excel_match_column).isSome = true) :
    (∀ row, env.excel_df.find? (row_matches env.excel_match_column k) = some row →
        get_excel_row env k = row_to_dict row) ∧
    (env.excel_df.find? (row_matches env.excel_match_column k) = Option.none →
        get_excel_row env k
          = PyVal.dict [("error", PyVal.s ("No matching row found for identifier: " ++ k))]) := by
  constructor
  · intro row hrow
    unfold get_excel_row
    rw [← head_filter_eq_find] at hrow
    cases hf : env.excel_df.filter (row_matches env.excel_match_column k) with
    | nil => rw [hf] at hrow; simp at hrow
    | cons r t =>
      rw [hf] at hrow
      simp at hrow
      rw [hrow]
  · intro hnone
    unfold get_excel_row
    rw [← head_filter_eq_find] at hnone
    cases hf : env.excel_df.filter (row_matches env.excel_match_column k) with
    | nil => rfl
    | cons r t => rw [hf] at hnone; simp at hnone

/-- Witness for C7: on a concrete DataFrame with a duplicated join key
"a" and a NaN cell, the first matching row (NaN rewritten to None) is
returned. -/
theorem lookup_returns_first_matching_row_witness :
    (∀ row ∈ env_excel.excel_df, (rowCell row env_excel.excel_match_column).isSome = true) ∧
    ((∀ row, env_excel.excel_df.find? (row_matches env_excel.excel_match_column "a") = some row →
        get_excel_row env_excel "a" = row_to_dict row) ∧
     (env_excel.excel_df.find? (row_matches env_excel.excel_match_column "a") = Option.none →
        get_excel_row env_excel "a"
          = PyVal.dict [("error", PyVal.s ("No matching row found for identifier: " ++ "a"))])) :=
  ⟨by decide, lookup_returns_first_matching_row env_excel "a" (by decide)⟩

/-- C8: the converter maps a leaf with text "42" to the scalar "42", maps
a node with two sibling x-children to an ordered sequence under tag x,
and maps a node with an id attribute and one child to a mapping holding
the attribute entry plus the child entry. -/
theorem tree_to_map_examples :
    xml_to_dict (XmlElement.mk "n" [] (some "42") XmlForest.nil) = PyVal.s "42" ∧
    xml_to_dict (XmlElement.mk "r" [] Option.none
        (XmlForest.cons (XmlElement.mk "x" [] (some "1") XmlForest.nil)
          (XmlForest.cons (XmlElement.mk "x" [] (some "2") XmlForest.nil) XmlForest.nil)))
      = PyVal.dict [("x", PyVal.list [PyVal.s "1", PyVal.s "2"])] ∧
    xml_to_dict (XmlElement.mk "n" [("id", "5")] Option.none
        (XmlForest.cons (XmlElement.mk "c" [] (some "v") XmlForest.nil) XmlForest.nil))
      = PyVal.dict [("id", PyVal.s "5"), ("c", PyVal.s "v")] := by
  refine ⟨?_, ?_, ?_⟩ <;> with_unfolding_all rfl

/-- C9: a node with no children and non-empty trimmed text converts to
the trimmed text scalar, whatever its attributes: the attribute mapping
is discarded. -/
theorem leaf_text_discards_attributes
    (tag : String) (attrib : List (String × String)) (text : String)
    (ht : text.trim ≠ "") :
    xml_to_dict (XmlElement.mk tag attrib (some text) XmlForest.nil) = PyVal.s text.trim := by
  unfold xml_to_dict
  simp [ht]

/-- Witness for C9: a leaf with text "42" and a non-empty attribute map
still converts to the bare scalar. -/
theorem leaf_text_discards_attributes_witness :
    ("42" : String).trim ≠ "" ∧
    xml_to_dict (XmlElement.mk "n" [("id", "5")] (some "42") XmlForest.nil)
      = PyVal.s ("42" : String).trim :=
  ⟨by with_unfolding_all decide,
   leaf_text_discards_attributes "n" [("id", "5")] "42" (by with_unfolding_all decide)⟩

/-- C10: a node with no children, no non-whitespace text and at least one
attribute converts to its attribute mapping, which is neither the empty
mapping nor a scalar. -/
theorem leaf_attribute_mapping
    (tag : String) (attrib : List (String × String)) (text : Option String)
    (ht : (text.getD "").trim = "")
    (ha : attrib ≠ []) :
    xml_to_dict (XmlElement.mk tag attrib text XmlForest.nil)
      = PyVal.dict (attrib.map (fun p => (p.1, PyVal.s p.2))) ∧
    xml_to_dict (XmlElement.mk tag attrib text XmlForest.nil) ≠ PyVal.dict [] ∧
    (∀ v, xml_to_dict (XmlElement.mk tag attrib text XmlForest.nil) ≠ PyVal.s v) := by
  have h : xml_to_dict (XmlElement.mk tag attrib text XmlForest.nil)
      = PyVal.dict (attrib.map (fun p => (p.1, PyVal.s p.2))) := by
    unfold xml_to_dict
    simp [ht]
  refine ⟨h, ?_, ?_⟩
  · rw [h]
    intro hcontra
    injection hcontra with hl
    exact ha (List.map_eq_nil_iff.mp hl)
  · intro v hcontra
    rw [h] at hcontra
    exact PyVal.noConfusion hcontra

/-- Witness for C10: a childless node with whitespace-only text and an id
attribute converts to the attribute mapping. -/
theorem leaf_attribute_mapping_witness :
    ((some "  " : Option String).getD "").trim = "" ∧
    ([("id", "5")] : List (String × String)) ≠ [] ∧
    (xml_to_dict (XmlElement.mk "n" [("id", "5")] (some "  ") XmlForest.nil)
        = PyVal.dict ([("id", "5")].map (fun p => (p.1, PyVal.s p.2))) ∧
     xml_to_dict (XmlElement.mk "n" [("id", "5")] (some "  ") XmlForest.nil) ≠ PyVal.dict [] ∧
     (∀ v, xml_to_dict (XmlElement.mk "n" [("id", "5")] (some "  ") XmlForest.nil) ≠ PyVal.s v)) :=
  ⟨by with_unfolding_all decide, by decide,
   leaf_attribute_mapping "n" [("id", "5")] (some "  ")
     (by with_unfolding_all decide) (by decide)⟩

/-- C5: for every identifier list and concurrency bound within range,
either scheduler returns exactly one outcome per input identifier (the
async scheduler in input order, the sync scheduler as a permutation),
and a run whose exception escapes is converted into a failed outcome
carrying that identifier instead of aborting the batch. -/
theorem scheduler_yields_one_outcome_per_identifier
    (run : String → Except String ProcessingResult)
    (s3_keys completed : List String) (c : Nat)
    (hc : 1 ≤ c ∧ c ≤ s3_keys.length)
    (hkey : ∀ k r, run k = Except.ok r → r.s3_key = k)
    (hperm : completed.Perm s3_keys) :
    (process_keys_async run s3_keys c).length = s3_keys.length ∧
    (process_keys_async run s3_keys c).map (fun r => r.s3_key) = s3_keys ∧
    (process_keys_sync run s3_keys c completed).length = s3_keys.length ∧
    ((process_keys_sync run s3_keys c completed).map (fun r => r.s3_key)).Perm s3_keys ∧
    (∀ k msg, k ∈ s3_keys → run k = Except.error msg →
        failed_result k msg ∈ process_keys_async run s3_keys c) := by
  refine ⟨?_, ?_, ?_, ?_, ?_⟩
  · simp [process_keys_async]
  · unfold process_keys_async
    rw [List.map_map]
    have h : s3_keys.map ((fun r => r.s3_key) ∘ fun key => settle key (run key))
        = s3_keys.map id :=
      List.map_congr_left (fun k _ => settle_carries_key run hkey k)
    rw [h, List.map_id]
  · simp [process_keys_sync, hperm.length_eq]
  · unfold process_keys_sync
    rw [List.map_map]
    have h : completed.map ((fun r => r.s3_key) ∘ fun key => settle key (run key))
        = completed.map id :=
      List.map_congr_left (fun k _ => settle_carries_key run hkey k)
    rw [h, List.map_id]
    exact hperm
  · intro k msg hk hrun
    unfold process_keys_async
    have h : settle k (run k) = failed_result k msg := by rw [hrun]; rfl
    rw [← h]
    exact List.mem_map_of_mem _ hk

/-- Witness for C5: a two-identifier batch, concurrency bound 1, a
completion order that reverses the input, and a task body whose
exception always escapes. -/
theorem scheduler_yields_one_outcome_per_identifier_witness :
    ((1 : Nat) ≤ 1 ∧ 1 ≤ (["a.xml", "b.xml"] : List String).length) ∧
    (∀ k r, run_always_raises k = Except.ok r → r.s3_key = k) ∧
    (["b.xml", "a.xml"] : List String).Perm ["a.xml", "b.xml"] ∧
    ((process_keys_async run_always_raises ["a.xml", "b.xml"] 1).length
        = (["a.xml", "b.xml"] : List String).length ∧
     (process_keys_async run_always_raises ["a.xml", "b.xml"] 1).map (fun r => r.s3_key)
        = ["a.xml", "b.xml"] ∧
     (process_keys_sync run_always_raises ["a.xml", "b.xml"] 1 ["b.xml", "a.xml"]).length
        = (["a.xml", "b.xml"] : List String).length ∧
     ((process_keys_sync run_always_raises ["a.xml", "b.xml"] 1 ["b.xml", "a.xml"]).map
          (fun r => r.s3_key)).Perm ["a.xml", "b.xml"] ∧
     (∀ k msg, k ∈ (["a.xml", "b.xml"] : List String) →
        run_always_raises k = Except.error msg →
        failed_result k msg ∈ process_keys_async run_always_raises ["a.xml", "b.xml"] 1)) :=
  ⟨⟨by decide, by decide⟩,
   fun k r h => Except.noConfusion h,
   by decide,
   scheduler_yields_one_outcome_per_identifier run_always_raises
     ["a.xml", "b.xml"] ["b.xml", "a.xml"] 1 ⟨by decide, by decide⟩
     (fun k r h => Except.noConfusion h) (by decide)⟩

/-- C6: under the async strategy the outcome stored at index i always
carries the i-th input identifier. -/
theorem async_outcome_matches_input_index
    (run : String → Except String ProcessingResult)
    (s3_keys : List String) (c i : Nat)
    (hkey : ∀ k r, run k = Except.ok r → r.s3_key = k) :
    (process_keys_async run s3_keys c)[i]?.map (fun r => r.s3_key) = s3_keys[i]? := by
  unfold process_keys_async
  rw [List.getElem?_map]
  cases h : s3_keys[i]? with
  | none => rfl
  | some k => simp [settle_carries_key run hkey k]

/-- Witness for C6: in a concrete two-identifier async batch the outcome
at index 1 carries the second input identifier. -/
theorem async_outcome_matches_input_index_witness :
    (∀ k r, run_pipeline_async env_transport_err k = Except.ok r → r.s3_key = k) ∧
    (process_keys_async (run_pipeline_async env_transport_err) ["a.xml", "b.xml"] 2)[1]?.map
        (fun r => r.s3_key)
      = (["a.xml", "b.xml"] : List String)[1]? := by
  have hkey : ∀ k r, run_pipeline_async env_transport_err k = Except.ok r → r.s3_key = k := by
    intro k r h
    injection h with h2
    rw [← h2]
    rfl
  exact ⟨hkey,
    async_outcome_matches_input_index (run_pipeline_async env_transport_err)
      ["a.xml", "b.xml"] 2 1 hkey⟩

/-- C1 counterexample: in a two-key async batch where exactly the fetch
for "a" raises a transport exception and everything else succeeds, the
batch reports 2 successes and 0 failures, not 1 failure: `query_api`
catches the transport exception itself and the run still succeeds. -/
theorem single_transport_error_batch_counterexample :
    success_count (process_keys_async (run_pipeline_async env_transport_err)
        ["a.xml", "b.xml"] 2) = 2 ∧
    failure_count (process_keys_async (run_pipeline_async env_transport_err)
        ["a.xml", "b.xml"] 2) = 0 ∧
    failure_count (process_keys_async (run_pipeline_async env_transport_err)
        ["a.xml", "b.xml"] 2) ≠ 1 := by
  have h0 : failure_count (process_keys_async (run_pipeline_async env_transport_err)
      ["a.xml", "b.xml"] 2) = 0 := by with_unfolding_all rfl
  refine ⟨by with_unfolding_all rfl, h0, ?_⟩
  rw [h0]
  decide

/-- C1 (amended): in a batch where exactly one key's fetch raises a
transport exception, every other fetch succeeds and all writes succeed,
the thread-pool strategy returns N-1 successes and exactly 1 failure
whose outcome carries a captured error message, completing without
raising; under the cooperative (async) strategy the same batch instead
returns N successes and 0 failures, the transport error being captured
inside the remote record rather than failing the run. -/
theorem single_transport_error_batch
    (env : Env) (s3_keys completed : List String) (c : Nat)
    (hperm : completed.Perm s3_keys)
    (hexn : s3_keys.countP (fun k => key_fetch_raises env k) = 1)
    (hok : ∀ k ∈ s3_keys, key_fetch_raises env k = false → key_fetch_ok env k = true)
    (hwrite : ∀ k m, update_s3_metadata env k m = true) :
    success_count (process_keys_sync (run_pipeline_sync env) s3_keys c completed)
      = s3_keys.length - 1 ∧
    failure_count (process_keys_sync (run_pipeline_sync env) s3_keys c completed) = 1 ∧
    (∀ r ∈ process_keys_sync (run_pipeline_sync env) s3_keys c completed,
        r.success = false → r.error_message.isSome = true) ∧
    success_count (process_keys_async (run_pipeline_async env) s3_keys c)
      = s3_keys.length ∧
    failure_count (process_keys_async (run_pipeline_async env) s3_keys c) = 0 := by
  have hmap : process_keys_sync (run_pipeline_sync env) s3_keys c completed
      = completed.map (fun k => process_single_key_sync env k) := rfl
  have hlen1 : 1 ≤ s3_keys.length := by
    have hle := @List.countP_le_length String (fun k => key_fetch_raises env k) s3_keys
    omega
  have hsucc : success_count (process_keys_sync (run_pipeline_sync env) s3_keys c completed)
      = s3_keys.length - 1 := by
    rw [hmap, success_count_eq_countP, List.countP_map,
        hperm.countP_eq ((fun r => r.success) ∘ fun k => process_single_key_sync env k)]
    simp only [Function.comp_def]
    rw [countP_congr_bool s3_keys (fun k => (process_single_key_sync env k).success)
        (fun k => !(key_fetch_raises env k))
        (fun k hk => sync_success_eq_not_raises env k (hok k hk) (fun m => hwrite k m))]
    rw [countP_bnot_eq, hexn]
  refine ⟨hsucc, ?_, ?_, ?_, ?_⟩
  · rw [failure_count, hsucc, hmap, List.length_map, hperm.length_eq]
    omega
  · intro r hr hfail
    rw [hmap] at hr
    obtain ⟨k, hk, hkr⟩ := List.mem_map.mp hr
    rw [← hkr] at hfail ⊢
    exact sync_failed_has_message env k (hok k (hperm.mem_iff.mp hk))
      (fun m => hwrite k m) hfail
  · have hmap2 : process_keys_async (run_pipeline_async env) s3_keys c
        = s3_keys.map (fun k => process_single_key env k) := rfl
    have hallsucc : ∀ k ∈ s3_keys, (process_single_key env k).success = true :=
      fun k _ => hwrite k _
    rw [hmap2, success_count_eq_countP, List.countP_map]
    simp only [Function.comp_def]
    rw [countP_congr_bool s3_keys (fun k => (process_single_key env k).success)
        (fun _ => true) hallsucc]
    simp
  · rw [failure_count]
    have hlen2 : (process_keys_async (run_pipeline_async env) s3_keys c).length
        = s3_keys.length := by simp [process_keys_async]
    have hsucc2 : success_count (process_keys_async (run_pipeline_async env) s3_keys c)
        = s3_keys.length := by
      have hmap2 : process_keys_async (run_pipeline_async env) s3_keys c
          = s3_keys.map (fun k => process_single_key env k) := rfl
      have hallsucc : ∀ k ∈ s3_keys, (process_single_key env k).success = true :=
        fun k _ => hwrite k _
      rw [hmap2, success_count_eq_countP, List.countP_map]
      simp only [Function.comp_def]
      rw [countP_congr_bool s3_keys (fun k => (process_single_key env k).success)
          (fun _ => true) hallsucc]
      simp
    omega

/-- Witness for C1 (amended): the concrete two-key batch of the
counterexample environment, with the completion order reversed. -/
theorem single_transport_error_batch_witness :
    (["b.xml", "a.xml"] : List String).Perm ["a.xml", "b.xml"] ∧
    (["a.xml", "b.xml"] : List String).countP
        (fun k => key_fetch_raises env_transport_err k) = 1 ∧
    (∀ k ∈ (["a.xml", "b.xml"] : List String),
        key_fetch_raises env_transport_err k = false →
        key_fetch_ok env_transport_err k = true) ∧
    (success_count (process_keys_sync (run_pipeline_sync env_transport_err)
          ["a.xml", "b.xml"] 2 ["b.xml", "a.xml"])
        = (["a.xml", "b.xml"] : List String).length - 1 ∧
     failure_count (process_keys_sync (run_pipeline_sync env_transport_err)
          ["a.xml", "b.xml"] 2 ["b.xml", "a.xml"]) = 1 ∧
     (∀ r ∈ process_keys_sync (run_pipeline_sync env_transport_err)
          ["a.xml", "b.xml"] 2 ["b.xml", "a.xml"],
        r.success = false → r.error_message.isSome = true) ∧
     success_count (process_keys_async (run_pipeline_async env_transport_err)
          ["a.xml", "b.xml"] 2)
        = (["a.xml", "b.xml"] : List String).length ∧
     failure_count (process_keys_async (run_pipeline_async env_transport_err)
          ["a.xml", "b.xml"] 2) = 0) :=
  ⟨by decide, by with_unfolding_all decide, by with_unfolding_all decide,
   single_transport_error_batch env_transport_err ["a.xml", "b.xml"] ["b.xml", "a.xml"] 2
     (by decide) (by with_unfolding_all decide) (by with_unfolding_all decide)
     (fun k m => rfl)⟩

/-- C2 counterexample: with identical per-identifier step results (the
fetch for "a" raises a transport exception, the write succeeds), the
async strategy returns a successful outcome with no error message while
the thread-pool strategy returns a failed outcome carrying the message —
the two strategies do not produce the same outcomes. -/
theorem strategies_not_identical_counterexample :
    success_count (process_keys_async (run_pipeline_async env_transport_err)
        ["a.xml"] 1) = 1 ∧
    success_count (process_keys_sync (run_pipeline_sync env_transport_err)
        ["a.xml"] 1 ["a.xml"]) = 0 ∧
    (process_single_key env_transport_err "a.xml").error_message = Option.none ∧
    (process_single_key_sync env_transport_err "a.xml").error_message
      = some "Connection reset by peer" := by
  refine ⟨?_, ?_, ?_, ?_⟩ <;> with_unfolding_all rfl

/-- C2 (amended): when no identifier's fetch raises a transport exception
or returns a 200 body that fails to parse, the two strategies produce the
same outcomes per identifier, the thread-pool result being a permutation
of the cooperative result; when a fetch raises, the strategies diverge
(the async run succeeds with an error-shaped remote record, the sync run
fails). -/
theorem strategies_agree_without_fetch_exceptions
    (env : Env) (s3_keys completed : List String) (c : Nat)
    (hperm : completed.Perm s3_keys)
    (hsafe : ∀ k ∈ s3_keys, key_fetch_raises env k = false ∧ key_parse_fails env k = false) :
    (process_keys_sync (run_pipeline_sync env) s3_keys c completed).Perm
      (process_keys_async (run_pipeline_async env) s3_keys c) := by
  have h1 : process_keys_sync (run_pipeline_sync env) s3_keys c completed
      = completed.map (fun k => process_single_key_sync env k) := rfl
  have h2 : process_keys_async (run_pipeline_async env) s3_keys c
      = s3_keys.map (fun k => process_single_key env k) := rfl
  rw [h1, h2]
  have h3 : s3_keys.map (fun k => process_single_key_sync env k)
      = s3_keys.map (fun k => process_single_key env k) :=
    List.map_congr_left (fun k hk => pipelines_agree env k (hsafe k hk).1 (hsafe k hk).2)
  rw [← h3]
  exact hperm.map (fun k => process_single_key_sync env k)

/-- Witness for C2 (amended): a concrete batch with only 404 responses
(no transport or parse failure), reversed completion order. -/
theorem strategies_agree_without_fetch_exceptions_witness :
    (["b.xml", "a.xml"] : List String).Perm ["a.xml", "b.xml"] ∧
    (∀ k ∈ (["a.xml", "b.xml"] : List String),
        key_fetch_raises env_status_404 k = false ∧
        key_parse_fails env_status_404 k = false) ∧
    (process_keys_sync (run_pipeline_sync env_status_404)
        ["a.xml", "b.xml"] 2 ["b.xml", "a.xml"]).Perm
      (process_keys_async (run_pipeline_async env_status_404) ["a.xml", "b.xml"] 2) :=
  ⟨by decide, by with_unfolding_all decide,
   strategies_agree_without_fetch_exceptions env_status_404
     ["a.xml", "b.xml"] ["b.xml", "a.xml"] 2 (by decide) (by with_unfolding_all decide)⟩

/-- C3 counterexample: a fetch completing with status 404 yields the
record whose error entry is the full message "API request failed with
status 404", which is not the record mapping error to the bare string
"404". -/
theorem soft_404_record_counterexample :
    query_api env_status_404 "a"
      = PyVal.dict [("error", PyVal.s "API request failed with status 404")] ∧
    query_api env_status_404 "a" ≠ PyVal.dict [("error", PyVal.s "404")] := by
  have h : query_api env_status_404 "a"
      = PyVal.dict [("error", PyVal.s "API request failed with status 404")] := by
    with_unfolding_all rfl
  refine ⟨h, ?_⟩
  rw [h]
  intro hcontra
  injection hcontra with hlist
  injection hlist with hpair hrest
  injection hpair with hfst hsnd
  injection hsnd with hstr
  exact absurd hstr (by decide)

/-- C3 (amended): a fetch completing with HTTP status 404 yields the
error-shaped record mapping "error" to "API request failed with status
404", and the run still proceeds through combine and write rather than
failing on account of the fetch: success is exactly the writer's verdict
and no error message is recorded, in both pipelines. -/
theorem status_404_is_soft_failure
    (env : Env) (k : String) (body : Except String XmlElement)
    (h : env.http (extract_identifier_from_key k) = HttpResult.resp 404 body) :
    (process_single_key env k).api_data
      = PyVal.dict [("error", PyVal.s "API request failed with status 404")] ∧
    (process_single_key env k).combined_metadata
      = combine_data env k (process_single_key env k).excel_data
          (PyVal.dict [("error", PyVal.s "API request failed with status 404")]) ∧
    (process_single_key env k).success
      = update_s3_metadata env k (process_single_key env k).combined_metadata ∧
    (process_single_key env k).error_message = Option.none ∧
    process_single_key_sync env k = process_single_key env k := by
  have hq : query_api env (extract_identifier_from_key k)
      = PyVal.dict [("error", PyVal.s "API request failed with status 404")] := by
    have hmsg : "API request failed with status " ++ toString (404 : Nat)
        = "API request failed with status 404" := by with_unfolding_all rfl
    simp [query_api, h, hmsg]
  have hr : key_fetch_raises env k = false := by
    unfold key_fetch_raises
    rw [h]
  have hp : key_parse_fails env k = false := by
    unfold key_parse_fails
    rw [h]
  refine ⟨?_, ?_, rfl, rfl, pipelines_agree env k hr hp⟩
  · rw [show (process_single_key env k).api_data
        = query_api env (extract_identifier_from_key k) from rfl, hq]
  · rw [show (process_single_key env k).combined_metadata
        = combine_data env k (process_single_key env k).excel_data
            (query_api env (extract_identifier_from_key k)) from rfl, hq]

/-- Witness for C3 (amended): the concrete all-404 environment at key
"a.xml". -/
theorem status_404_is_soft_failure_witness :
    env_status_404.http (extract_identifier_from_key "a.xml")
      = HttpResult.resp 404 (Except.ok root_empty) ∧
    ((process_single_key env_status_404 "a.xml").api_data
      = PyVal.dict [("error", PyVal.s "API request failed with status 404")] ∧
     (process_single_key env_status_404 "a.xml").combined_metadata
      = combine_data env_status_404 "a.xml" (process_single_key env_status_404 "a.xml").excel_data
          (PyVal.dict [("error", PyVal.s "API request failed with status 404")]) ∧
     (process_single_key env_status_404 "a.xml").success
      = update_s3_metadata env_status_404 "a.xml"
          (process_single_key env_status_404 "a.xml").combined_metadata ∧
     (process_single_key env_status_404 "a.xml").error_message = Option.none ∧
     process_single_key_sync env_status_404 "a.xml"
      = process_single_key env_status_404 "a.xml") :=
  ⟨rfl, status_404_is_soft_failure env_status_404 "a.xml" (Except.ok root_empty) rfl⟩

/-- C4 counterexample: when the metadata writer returns False the run
ends with success=False as claimed, but the outcome's error message is
None — the failing step's error text is not captured in the outcome. -/
theorem writer_false_no_error_text_counterexample :
    (process_single_key env_write_fails "a.xml").success = false ∧
    (process_single_key env_write_fails "a.xml").error_message = Option.none :=
  ⟨rfl, rfl⟩

/-- C4 (amended): when the metadata writer reports False, the run moves
to a failed outcome (success flag false) without raising, but the
outcome's error message stays None: the writer's error text is only
logged inside `update_s3_metadata`, never captured in the outcome.  The
same holds for the sync pipeline whenever its fetch succeeded. -/
theorem writer_false_fails_without_raising
    (env : Env) (k : String)
    (hw : ∀ m, update_s3_metadata env k m = false) :
    (process_single_key env k).success = false ∧
    (process_single_key env k).error_message = Option.none ∧
    (key_fetch_ok env k = true →
      (process_single_key_sync env k).success = false ∧
      (process_single_key_sync env k).error_message = Option.none) := by
  refine ⟨hw _, rfl, ?_⟩
  intro hko
  obtain ⟨root, h⟩ := key_fetch_ok_spec env k hko
  rw [sync_of_ok env k root h]
  exact ⟨hw _, rfl⟩

/-- Witness for C4 (amended): the concrete environment whose writes all
fail, at key "b.xml". -/
theorem writer_false_fails_without_raising_witness :
    (∀ m, update_s3_metadata env_write_fails "b.xml" m = false) ∧
    ((process_single_key env_write_fails "b.xml").success = false ∧
     (process_single_key env_write_fails "b.xml").error_message = Option.none ∧
     (key_fetch_ok env_write_fails "b.xml" = true →
       (process_single_key_sync env_write_fails "b.xml").success = false ∧
       (process_single_key_sync env_write_fails "b.xml").error_message = Option.none)) :=
  ⟨fun m => rfl,
   writer_false_fails_without_raising env_write_fails "b.xml" (fun m => rfl)⟩
